import Mathlib

/-!
Shallow embedding of the campaign lifecycle and status engine of
`app/services/client/campaigns.py` (class `CampaignService`), together with
proofs of the specification claims about it.

Modelling conventions:
* A Python timezone-aware `datetime` is modelled by `PyDatetime`: the instant
  it denotes (an integer timestamp, e.g. microseconds since the epoch) plus
  the attached UTC offset in minutes (`none` models a naive datetime).
  Comparison of aware datetimes in Python compares the denoted instants and
  `astimezone` preserves the instant, so `pyLt`/`pyLe`/`pyEq` compare the
  `instant` fields.
* The database is an explicit list of `CampaignRec` rows; SQLAlchemy queries
  become list filters, and `scalar_one_or_none` becomes a match on the list
  of hits (raising `Error.multipleResults` on two or more, as the ORM does).
* `datetime.now(_BEIJING_TZ)` is passed in explicitly as a `now_beijing`
  parameter.
* Fallible service methods return `Except Error α`; `APIException` becomes
  the `Error.api status message` constructor, with the message rendered as a
  structured `Msg` value (the id lists that Python interpolates into the
  message string are carried as payloads).
-/

/-- A Python `datetime`: the instant it denotes plus the attached UTC offset
in minutes (`none` for a naive datetime without `tzinfo`). -/
structure PyDatetime where
  instant : Int
  offsetMin : Option Int
deriving DecidableEq, Repr

/-- `d.astimezone(_BEIJING_TZ)`: same instant, offset becomes UTC+8
(Asia/Shanghai has a fixed +08:00 offset, 480 minutes). -/
def astimezoneSH (d : PyDatetime) : PyDatetime :=
  { instant := d.instant, offsetMin := some 480 }

/-- Python `<` on aware datetimes compares the denoted instants. -/
def pyLt (a b : PyDatetime) : Prop := a.instant < b.instant

/-- Python `<=` on aware datetimes compares the denoted instants. -/
def pyLe (a b : PyDatetime) : Prop := a.instant ≤ b.instant

/-- Python / SQL equality of timestamps: equality of the denoted instants. -/
def pyEq (a b : PyDatetime) : Prop := a.instant = b.instant

instance (a b : PyDatetime) : Decidable (pyLt a b) := by
  unfold pyLt; infer_instance

instance (a b : PyDatetime) : Decidable (pyLe a b) := by
  unfold pyLe; infer_instance

instance (a b : PyDatetime) : Decidable (pyEq a b) := by
  unfold pyEq; infer_instance

/-- `d.tzinfo is not None`. -/
def isAware (d : PyDatetime) : Prop := d.offsetMin.isSome

instance (d : PyDatetime) : Decidable (isAware d) := by
  unfold isAware; infer_instance

/-- `CampaignService._compute_status_from_datetimes(start_date, end_date,
now_beijing)`: converts both endpoints to the business timezone and compares
with `now_beijing`. -/
def compute_status_from_datetimes (start_date end_date now_beijing : PyDatetime) : String :=
  let start_local := astimezoneSH start_date
  let end_local := astimezoneSH end_date
  if pyLt now_beijing start_local then "upcoming"
  else if pyLe start_local now_beijing ∧ pyLe now_beijing end_local then "active"
  else "completed"

/-- A resolved city entry as stored on a campaign row
(`division_id` plus `division_name_en`, see `_normalize_cities`). -/
structure CityRec where
  division_id : String
  division_name_en : String
deriving DecidableEq, Repr

/-- A row of the `campaigns` table (`app/models/campaign.py`). JSON payload
columns that the campaign engine never inspects (`selected_dates`,
`billboards_tree`, the raw KPI/audience columns) are carried as opaque
`Option String` values; `created_at` comes from the `BaseModel` mixin and is
used only for the listing order. -/
structure CampaignRec where
  id : Int
  user_id : Int
  organization_id : Int
  name : String
  description : Option String
  budget : Rat
  start_date : PyDatetime
  end_date : PyDatetime
  status : String
  time_unit : String
  week_1st : Option String
  selected_dates : Option String
  kpi_start_date : Option PyDatetime
  kpi_end_date : Option PyDatetime
  hour_range : List Int
  countries : List String
  cities : List CityRec
  gender : Option String
  age_groups : List String
  spc_category : Option String
  mobility_modes : List String
  poi_categories : List String
  billboard_ids : List Int
  inventory_ids : List String
  billboards_tree : Option String
  billboard_kpi_data : Option String
  kpi_data : Option String
  kpi_full_data : Option String
  audience_breakdown : Option String
  customize_kpis : Option String
  operator_first_name : Option String
  operator_last_name : Option String
  created_at : Int
deriving DecidableEq, Repr

/-- A row of the `inventory_billboards` table, restricted to the two columns
`_ensure_billboards_belong_to_org` selects. -/
structure BillboardRec where
  id : Int
  organization_id : Int
deriving DecidableEq, Repr

/-- A row of the `geo_divisions` table, restricted to the columns
`_normalize_cities` reads. -/
structure GeoRec where
  division_id : String
  division_name_en : String
deriving DecidableEq, Repr

/-- The authenticated actor (`app.models.user.User` as used by the service). -/
structure UserRec where
  id : Int
  organization_id : Int
  role : String
  first_name : Option String
  last_name : Option String
deriving DecidableEq, Repr

/-- The body of the `for campaign in campaigns` loop of
`refresh_campaign_statuses_for_org`, applied to one row: rows of the given
organization whose status is not `"draft"` get the recomputed status, all
other rows are left untouched (they are not selected by the query). -/
def refreshStep (now_beijing : PyDatetime) (organization_id : Int)
    (c : CampaignRec) : CampaignRec :=
  if c.organization_id = organization_id ∧ c.status ≠ "draft" then
    { c with status := compute_status_from_datetimes c.start_date c.end_date now_beijing }
  else c

/-- Whether the loop body of `refresh_campaign_statuses_for_org` counts the
row as updated: it is selected and its recomputed status differs. -/
def refreshChanged (now_beijing : PyDatetime) (organization_id : Int)
    (c : CampaignRec) : Bool :=
  decide (c.organization_id = organization_id ∧ c.status ≠ "draft")
    && decide (compute_status_from_datetimes c.start_date c.end_date now_beijing ≠ c.status)

/-- `CampaignService.refresh_campaign_statuses_for_org(db, organization_id)`:
selects the organization's non-draft campaigns, recomputes each status from
`datetime.now(_BEIJING_TZ)` (passed here as `now_beijing`), persists the
changed ones and returns how many changed. In-place mutation of the selected
rows is modelled as a position-preserving map over the whole table. -/
def refresh_campaign_statuses_for_org (now_beijing : PyDatetime)
    (organization_id : Int) (db : List CampaignRec) : List CampaignRec × Nat :=
  (db.map (refreshStep now_beijing organization_id),
   db.countP (refreshChanged now_beijing organization_id))

/-- The `for org_id in org_ids` loop of `refresh_all_campaign_statuses`:
each iteration calls `refresh_campaign_statuses_for_org`, which takes a fresh
`datetime.now(_BEIJING_TZ)`; the stream of those instants is `nows`, indexed
by the position `k` of the call. -/
def refreshOrgsGo (nows : Nat → PyDatetime) (k : Nat) (orgs : List Int)
    (db : List CampaignRec) : List CampaignRec × Nat :=
  match orgs with
  | [] => (db, 0)
  | o :: os =>
    let r1 := refresh_campaign_statuses_for_org (nows k) o db
    let r2 := refreshOrgsGo nows (k + 1) os r1.1
    (r2.1, r1.2 + r2.2)

/-- `CampaignService.refresh_all_campaign_statuses(db)`: enumerates the
distinct organization ids having at least one non-draft campaign and runs the
per-organization refresh for each, summing the update counts. -/
def refresh_all_campaign_statuses (nows : Nat → PyDatetime)
    (db : List CampaignRec) : List CampaignRec × Nat :=
  let org_ids :=
    ((db.filter (fun c => decide (c.status ≠ "draft"))).map (·.organization_id)).dedup
  refreshOrgsGo nows 0 org_ids db

/-- The messages `APIException` is raised with in `campaigns.py`. Lists of
offending ids that Python interpolates into the message string are carried
as structured payloads. -/
inductive Msg where
  | billboardsNotFound (ids : List Int)
  | billboardsWrongOrg (ids : List Int)
  | mustBeFutureBeijing (field : String)
  | endBeforeStart
  | inventoryRequired
  | billboardRequired
  | operatorsCannotCreate
  | invalidCities (ids : List String)
  | duplicateCampaign
  | campaignNotFound
  | onlyDraftDeleted
  | onlyDraftEdited
  | invalidPageParams
  | invalidStatusFilter
  | pageNotFound
  | startDateTzRequired
  | endDateTzRequired
deriving DecidableEq, Repr

/-- Failures of a service call: `APIException(status_code, message)`, or the
`MultipleResultsFound` the ORM's `scalar_one_or_none` raises on ≥ 2 rows. -/
inductive Error where
  | api (status_code : Nat) (message : Msg)
  | multipleResults
deriving DecidableEq, Repr

/-- Insert into a sorted list of ints (helper for Python `sorted`). -/
def insertSorted (x : Int) : List Int → List Int
  | [] => [x]
  | y :: ys => if x ≤ y then x :: y :: ys else y :: insertSorted x ys

/-- Python `sorted` on a list of ints. -/
def sortInts (l : List Int) : List Int := l.foldr insertSorted []

/-- Python `sorted(set(l))`: duplicates removed, ascending order. -/
def pySortedSet (l : List Int) : List Int := sortInts l.dedup

/-- `CampaignService._ensure_future_datetime(target, now_beijing, field_name)`:
rejects a target that, converted to the business timezone, is before `now`. -/
def ensure_future_datetime (target now_beijing : PyDatetime)
    (field_name : String) : Except Error Unit :=
  if pyLt (astimezoneSH target) now_beijing then
    .error (.api 400 (.mustBeFutureBeijing field_name))
  else .ok ()

/-- `CampaignService._ensure_billboards_belong_to_org(db, billboard_ids,
organization_id)`: with a non-empty id list, first reports the submitted ids
that exist on no inventory row (400, `sorted(set(...))` of them), then — only
when every id exists — reports the ids whose row belongs to another
organization (403, sorted). -/
def ensure_billboards_belong_to_org (inventory : List BillboardRec)
    (billboard_ids : List Int) (organization_id : Int) : Except Error Unit :=
  if billboard_ids.isEmpty then .ok ()
  else
    let rows := inventory.filter (fun b => billboard_ids.contains b.id)
    let existing_ids := rows.map (·.id)
    let missing := billboard_ids.filter (fun i => ! existing_ids.contains i)
    if ¬ missing.isEmpty then
      .error (.api 400 (.billboardsNotFound (pySortedSet missing)))
    else
      let unauthorized :=
        sortInts ((rows.filter (fun b => b.organization_id != organization_id)).map (·.id))
      if ¬ unauthorized.isEmpty then
        .error (.api 403 (.billboardsWrongOrg unauthorized))
      else .ok ()

/-- A raw city selection from the request payload
(`app/schemas/client/campaigns.py`, `CitySelection`). -/
structure CitySelection where
  division_id : String
  division_name_en : String
deriving DecidableEq, Repr

/-- `CampaignService._normalize_cities(db, cities)`: resolves every requested
division id against the geo table (whose `division_id` is its unique key),
failing with the full list of unresolvable ids, and returns the resolved
`(division_id, division_name_en)` pairs in request order. -/
def normalize_cities (geo : List GeoRec) (cities : List CitySelection) :
    Except Error (List CityRec) :=
  if cities.isEmpty then .ok []
  else
    let requested_ids := cities.map (·.division_id)
    let missing :=
      requested_ids.filter (fun i => (geo.find? (fun g => g.division_id == i)).isNone)
    if ¬ missing.isEmpty then .error (.api 400 (.invalidCities missing))
    else
      .ok (requested_ids.map (fun i =>
        { division_id := i,
          division_name_en :=
            (((geo.find? (fun g => g.division_id == i)).map (·.division_name_en)).getD "") }))

/-- The request payload (`CampaignCreateRequest` of
`app/schemas/client/campaigns.py`); enum-valued fields are carried as their
string values. -/
structure CampaignCreateRequest where
  name : String
  description : Option String
  budget : Rat
  start_date : PyDatetime
  end_date : PyDatetime
  time_unit : String
  week_1st : Option String
  hour_range : List Int
  countries : List String
  cities : List CitySelection
  gender : Option String
  age_groups : List String
  spc_category : Option String
  mobility_modes : List String
  poi_categories : List String
  billboard_ids : List Int
  inventory_ids : List String
  save_as_draft : Bool
deriving DecidableEq, Repr

/-- The rows selected by the duplicate query of
`_ensure_unique_campaign`: same owner, same name, same schedule, non-draft,
and (on edit) not the campaign being edited itself. -/
def dupMatches (db : List CampaignRec) (payload : CampaignCreateRequest)
    (current_user : UserRec) (exclude_campaign_id : Option Int) : List CampaignRec :=
  db.filter (fun c =>
    c.user_id == current_user.id && c.name == payload.name
      && decide (pyEq c.start_date payload.start_date)
      && decide (pyEq c.end_date payload.end_date)
      && c.status != "draft"
      && (match exclude_campaign_id with
          | some e => c.id != e
          | none => true))

/-- `CampaignService._ensure_unique_campaign(db, payload, current_user,
exclude_campaign_id)`. Python selects the matching row's `id` and tests it
with `if exists:`, which is falsy both for `None` and for the integer 0 — so
a match whose id is 0 would slip through; this truthiness is modelled
faithfully. Two or more matches make `scalar_one_or_none` raise. -/
def ensure_unique_campaign (db : List CampaignRec) (payload : CampaignCreateRequest)
    (current_user : UserRec) (exclude_campaign_id : Option Int) : Except Error Unit :=
  match dupMatches db payload current_user exclude_campaign_id with
  | [] => .ok ()
  | [c] => if c.id ≠ 0 then .error (.api 400 .duplicateCampaign) else .ok ()
  | _ => .error .multipleResults

/-- The rows selected by the scoped load used by delete/edit/detail:
`Campaign.id == campaign_id and Campaign.organization_id == actor's org`. -/
def scopedMatches (db : List CampaignRec) (campaign_id : Int)
    (current_user : UserRec) : List CampaignRec :=
  db.filter (fun c =>
    c.id == campaign_id && c.organization_id == current_user.organization_id)

/-- `CampaignService.delete_campaign(db, campaign_id, current_user)`: scoped
load (404 when absent or cross-organization), rejected unless the campaign is
a draft, otherwise the row is removed. -/
def delete_campaign (db : List CampaignRec) (campaign_id : Int)
    (current_user : UserRec) : Except Error (List CampaignRec) :=
  match scopedMatches db campaign_id current_user with
  | [] => .error (.api 404 .campaignNotFound)
  | [c] =>
    if c.status ≠ "draft" then .error (.api 400 .onlyDraftDeleted)
    else
      .ok (db.filter (fun x =>
        ! (x.id == campaign_id && x.organization_id == current_user.organization_id)))
  | _ => .error .multipleResults

/-- The `Campaign(...)` constructor call inside `create_campaign`: a fresh
row built from the payload, the actor and the computed status. The id and
`created_at` are assigned by the database and passed in here. -/
def campaignFromPayload (payload : CampaignCreateRequest) (current_user : UserRec)
    (normalized_cities : List CityRec) (status : String)
    (new_id created_at : Int) : CampaignRec :=
  { id := new_id, user_id := current_user.id,
    organization_id := current_user.organization_id,
    name := payload.name, description := payload.description,
    budget := payload.budget,
    start_date := payload.start_date, end_date := payload.end_date,
    status := status, time_unit := payload.time_unit, week_1st := payload.week_1st,
    selected_dates := none, kpi_start_date := none, kpi_end_date := none,
    hour_range := payload.hour_range, countries := payload.countries,
    cities := normalized_cities, gender := payload.gender,
    age_groups := payload.age_groups, spc_category := payload.spc_category,
    mobility_modes := payload.mobility_modes, poi_categories := payload.poi_categories,
    billboard_ids := payload.billboard_ids, inventory_ids := payload.inventory_ids,
    billboards_tree := none, billboard_kpi_data := none, kpi_data := none,
    kpi_full_data := none, audience_breakdown := none, customize_kpis := none,
    operator_first_name := current_user.first_name,
    operator_last_name := current_user.last_name, created_at := created_at }

/-- `CampaignService.create_campaign(db, payload, current_user)`, with the
billboard inventory, the geo table, `datetime.now(_BEIJING_TZ)` and the
database-assigned id/created-at passed explicitly. Note that the
future-or-today checks on `start_date`/`end_date` run on every submission,
drafts included; only the uniqueness check is skipped for drafts. -/
def create_campaign (inventory : List BillboardRec) (geo : List GeoRec)
    (now_beijing : PyDatetime) (new_id created_at : Int)
    (db : List CampaignRec) (payload : CampaignCreateRequest)
    (current_user : UserRec) : Except Error (List CampaignRec × CampaignRec) := do
  if current_user.role = "operator" then
    throw (Error.api 403 .operatorsCannotCreate)
  let is_draft := payload.save_as_draft
  if payload.inventory_ids.isEmpty then
    throw (Error.api 400 .inventoryRequired)
  if ¬ is_draft ∧ payload.billboard_ids.isEmpty then
    throw (Error.api 400 .billboardRequired)
  if ¬ payload.billboard_ids.isEmpty then
    ensure_billboards_belong_to_org inventory payload.billboard_ids
      current_user.organization_id
  if ¬ is_draft then
    ensure_unique_campaign db payload current_user none
  let normalized_cities ← normalize_cities geo payload.cities
  ensure_future_datetime payload.start_date now_beijing "start_date"
  ensure_future_datetime payload.end_date now_beijing "end_date"
  if pyLt payload.end_date payload.start_date then
    throw (Error.api 400 .endBeforeStart)
  let computed_status := if is_draft then "draft"
    else compute_status_from_datetimes payload.start_date payload.end_date now_beijing
  let campaign :=
    campaignFromPayload payload current_user normalized_cities computed_status
      new_id created_at
  return (db ++ [campaign], campaign)

/-- `CampaignService.edit_campaign(db, campaign_id, payload, current_user)`:
scoped load (404), draft-only gate (400), then the same validations as
create except that the future-or-today and `end<start` checks and the
uniqueness check (excluding the campaign's own id) run only for non-draft
submissions; finally every payload-derived field of the row is overwritten
and the derived report fields are cleared. -/
def edit_campaign (inventory : List BillboardRec) (geo : List GeoRec)
    (now_beijing : PyDatetime) (db : List CampaignRec) (campaign_id : Int)
    (payload : CampaignCreateRequest) (current_user : UserRec) :
    Except Error (List CampaignRec × CampaignRec) := do
  let campaign ← match scopedMatches db campaign_id current_user with
    | [] => throw (Error.api 404 .campaignNotFound)
    | [c] => pure c
    | _ => throw Error.multipleResults
  if campaign.status ≠ "draft" then
    throw (Error.api 400 .onlyDraftEdited)
  let is_draft := payload.save_as_draft
  if payload.inventory_ids.isEmpty then
    throw (Error.api 400 .inventoryRequired)
  if ¬ is_draft ∧ payload.billboard_ids.isEmpty then
    throw (Error.api 400 .billboardRequired)
  if ¬ payload.billboard_ids.isEmpty then
    ensure_billboards_belong_to_org inventory payload.billboard_ids
      current_user.organization_id
  let normalized_cities ← normalize_cities geo payload.cities
  let next_status ←
    if ¬ is_draft then do
      ensure_unique_campaign db payload current_user (some campaign.id)
      ensure_future_datetime payload.start_date now_beijing "start_date"
      ensure_future_datetime payload.end_date now_beijing "end_date"
      if pyLt payload.end_date payload.start_date then
        throw (Error.api 400 .endBeforeStart)
      pure (compute_status_from_datetimes payload.start_date payload.end_date now_beijing)
    else
      pure "draft"
  let updated := { campaign with
    name := payload.name, description := payload.description,
    budget := payload.budget,
    start_date := payload.start_date, end_date := payload.end_date,
    status := next_status, time_unit := payload.time_unit,
    week_1st := payload.week_1st, selected_dates := none,
    kpi_start_date := none, kpi_end_date := none,
    hour_range := payload.hour_range, countries := payload.countries,
    cities := normalized_cities, gender := payload.gender,
    age_groups := payload.age_groups, spc_category := payload.spc_category,
    mobility_modes := payload.mobility_modes, poi_categories := payload.poi_categories,
    billboard_ids := payload.billboard_ids, inventory_ids := payload.inventory_ids,
    billboards_tree := none, billboard_kpi_data := none, kpi_data := none,
    kpi_full_data := none, audience_breakdown := none, customize_kpis := none,
    operator_first_name := current_user.first_name,
    operator_last_name := current_user.last_name }
  return (db.map (fun x =>
    if x.id == campaign_id && x.organization_id == current_user.organization_id
    then updated else x), updated)

/-- Helper for SQL `ILIKE` containment: whether `pat` occurs in `hay`. -/
def substrAux (pat : List Char) : List Char → Bool
  | [] => pat.isEmpty
  | c :: rest => pat.isPrefixOf (c :: rest) || substrAux pat rest

/-- `column.ilike(f"%{search}%")`: case-insensitive substring match. -/
def strContainsCI (hay pat : String) : Bool :=
  substrAux pat.toLower.toList hay.toLower.toList

/-- The `or_(name ILIKE ..., description ILIKE ...)` search condition of
`list_campaigns`; a NULL description never matches. -/
def matchesSearch (s : String) (c : CampaignRec) : Bool :=
  strContainsCI c.name s
    || (match c.description with
        | some d => strContainsCI d s
        | none => false)

/-- The query-building part of `list_campaigns` (after the pagination
parameter check): refresh the organization's statuses, then restrict to the
organization and apply the search / status / date-range filters with their
validations, in source order. -/
def campaignQuery (now_beijing : PyDatetime) (db : List CampaignRec)
    (current_user : UserRec) (search : Option String)
    (status_filter : Option String) (start_date end_date : Option PyDatetime) :
    Except Error (List CampaignRec) := do
  let db1 := (refresh_campaign_statuses_for_org now_beijing
    current_user.organization_id db).1
  let q0 := db1.filter (fun c => c.organization_id == current_user.organization_id)
  let q1 := match search with
    | some s => if s ≠ "" then q0.filter (matchesSearch s) else q0
    | none => q0
  let q2 ← match status_filter with
    | some sf =>
      if sf ≠ "" then do
        let normalized := sf.toLower
        if normalized ≠ "upcoming" ∧ normalized ≠ "active" ∧ normalized ≠ "completed" then
          throw (Error.api 400 .invalidStatusFilter)
        pure (q1.filter (fun c => c.status == normalized))
      else pure q1
    | none => pure q1
  let q3 ← match start_date with
    | some sd => do
      if sd.offsetMin.isNone then throw (Error.api 400 .startDateTzRequired)
      pure (q2.filter (fun c => decide (pyLe sd c.start_date)))
    | none => pure q2
  let q4 ← match end_date with
    | some ed => do
      if ed.offsetMin.isNone then throw (Error.api 400 .endDateTzRequired)
      pure (q3.filter (fun c => decide (pyLe c.end_date ed)))
    | none => pure q3
  match start_date, end_date with
  | some sd, some ed =>
    if pyLt ed sd then throw (Error.api 400 .endBeforeStart) else pure ()
  | _, _ => pure ()
  return q4

/-- `ceil(total / per_page)` on exact integers (the source computes it with
`math.ceil` on a float quotient, exact at these magnitudes). -/
def ceilDiv (a b : Nat) : Nat := (a + b - 1) / b

/-- Insert into a list kept in descending `created_at` order. -/
def insertByCreated (x : CampaignRec) : List CampaignRec → List CampaignRec
  | [] => [x]
  | y :: ys =>
    if y.created_at ≤ x.created_at then x :: y :: ys else y :: insertByCreated x ys

/-- `order_by(Campaign.created_at.desc())`. -/
def sortByCreatedDesc (l : List CampaignRec) : List CampaignRec :=
  l.foldr insertByCreated []

/-- The page envelope returned by `list_campaigns`; `ρ` is the per-item
response projection's type. -/
structure ListResult (ρ : Type) where
  items : List ρ
  total : Nat
  per_page : Int
  current_page : Int
  last_page : Nat
  has_more : Bool
deriving Repr

/-- `CampaignService.list_campaigns(db, current_user, page, per_page, search,
status_filter, start_date, end_date)`. The per-item projection
`_build_response` is abstracted as `proj` (it is modelled separately, see
`build_response`). Python's `if last_page and page > last_page` is modelled
with the same truthiness: no page check when `last_page` is 0. -/
def list_campaigns {ρ : Type} (proj : CampaignRec → ρ) (now_beijing : PyDatetime)
    (db : List CampaignRec) (current_user : UserRec) (page per_page : Int)
    (search status_filter : Option String)
    (start_date end_date : Option PyDatetime) : Except Error (ListResult ρ) := do
  if page < 1 ∨ per_page < 1 then
    throw (Error.api 400 .invalidPageParams)
  let q ← campaignQuery now_beijing db current_user search status_filter
    start_date end_date
  let total := q.length
  let last_page := ceilDiv total per_page.toNat
  if last_page ≠ 0 ∧ (last_page : Int) < page then
    throw (Error.api 404 .pageNotFound)
  let sorted := sortByCreatedDesc q
  let items := ((sorted.drop ((page - 1) * per_page).toNat).take per_page.toNat).map proj
  return { items := items, total := total, per_page := per_page,
           current_page := page, last_page := last_page,
           has_more := decide (page < (last_page : Int)) }

/-- The four pseudo-metrics of `_generate_kpi_summary`; `V` is the value type
of the two rounded `random.uniform` draws (floating point in the source, kept
abstract here). -/
structure KpiSummary (V : Type) where
  coverage_percent : V
  frequency : V
  gross_contacts : Int
  net_contacts : Int

/-- An abstract model of Python's seeded `random.Random`: seeding from a
string, the two draw methods used by the source, `round(-, 2)`, and the
truncating `int(gross * u)` conversion. Each operation is a pure function of
the generator state, which is exactly what makes `Random(seed)` reproducible;
the numeric behaviour stays abstract (floating point). -/
structure PyRandomModel (σ V : Type) where
  seedInit : String → σ
  uniform : Rat → Rat → σ → V × σ
  randint : Int → Int → σ → Int × σ
  round2 : V → V
  mulToInt : Int → V → Int

/-- The f-string seed of `_generate_kpi_summary`:
`f"{campaign.id}-{campaign.start_date.isoformat()}-{campaign.end_date.isoformat()}"`;
`iso` abstracts `datetime.isoformat`, a pure rendering of the value. -/
def kpiSeed (iso : PyDatetime → String) (c : CampaignRec) : String :=
  toString c.id ++ "-" ++ iso c.start_date ++ "-" ++ iso c.end_date

/-- `CampaignService._generate_kpi_summary(campaign)`: seed the generator
from `(id, start_date, end_date)`, then draw coverage, frequency, gross and
net contacts in that order. -/
def generate_kpi_summary {σ V : Type} (iso : PyDatetime → String)
    (R : PyRandomModel σ V) (c : CampaignRec) : KpiSummary V :=
  let rng0 := R.seedInit (kpiSeed iso c)
  let p1 := R.uniform 35 95 rng0
  let coverage := R.round2 p1.1
  let p2 := R.uniform 1 5 p1.2
  let frequency := R.round2 p2.1
  let p3 := R.randint 50000 500000 p2.2
  let gross_contacts := p3.1
  let p4 := R.uniform (45 / 100) (85 / 100) p3.2
  let net_contacts := R.mulToInt gross_contacts p4.1
  { coverage_percent := coverage, frequency := frequency,
    gross_contacts := gross_contacts, net_contacts := net_contacts }

/-- The read-time projection `CampaignService._build_response(campaign)`: the
externally visible row has its raw analytic fields nulled out, and a fresh
KPI summary is attached. -/
structure CampaignResponseModel (V : Type) where
  base : CampaignRec
  kpi : KpiSummary V

/-- `_build_response`: null out `billboard_kpi_data`, `kpi_full_data` and
`audience_breakdown` (`_KPI_FIELDS`) plus the stored `kpi_data`, and attach
the regenerated summary. -/
def build_response {σ V : Type} (iso : PyDatetime → String)
    (R : PyRandomModel σ V) (c : CampaignRec) : CampaignResponseModel V :=
  let sanitized : CampaignRec := { c with
    billboard_kpi_data := none
    kpi_full_data := none
    audience_breakdown := none
    kpi_data := none }
  { base := sanitized, kpi := generate_kpi_summary iso R c }

/-- A concrete draft campaign row, used to instantiate theorems with
hypotheses at a concrete state. -/
def draftSample : CampaignRec :=
  { id := 1, user_id := 1, organization_id := 5, name := "n", description := none,
    budget := 1, start_date := ⟨0, some 480⟩, end_date := ⟨10, some 480⟩,
    status := "draft", time_unit := "day", week_1st := none, selected_dates := none,
    kpi_start_date := none, kpi_end_date := none, hour_range := [0, 24],
    countries := [], cities := [], gender := none, age_groups := [],
    spc_category := none, mobility_modes := [], poi_categories := [],
    billboard_ids := [], inventory_ids := ["inv-1"], billboards_tree := none,
    billboard_kpi_data := none, kpi_data := none, kpi_full_data := none,
    audience_breakdown := none, customize_kpis := none,
    operator_first_name := none, operator_last_name := none, created_at := 0 }

/-- A concrete actor used to instantiate theorems at concrete inputs. -/
def ownerSample : UserRec :=
  { id := 1, organization_id := 5, role := "owner",
    first_name := none, last_name := none }

/-- A concrete draft submission whose `start_date` is in the past relative
to the reference instant `⟨100, some 480⟩` used alongside it. -/
def pastDraftPayload : CampaignCreateRequest :=
  { name := "d", description := none, budget := 1,
    start_date := ⟨0, some 480⟩, end_date := ⟨200, some 480⟩,
    time_unit := "day", week_1st := none, hour_range := [0, 24],
    countries := [], cities := [], gender := none, age_groups := [],
    spc_category := none, mobility_modes := [], poi_categories := [],
    billboard_ids := [], inventory_ids := ["inv-1"], save_as_draft := true }

/-- A concrete draft submission with future dates (relative to the
reference instant `⟨100, some 480⟩`). -/
def futureDraftPayload : CampaignCreateRequest :=
  { pastDraftPayload with start_date := ⟨150, some 480⟩, end_date := ⟨200, some 480⟩ }

/-- A concrete deterministic instance of the abstract `random.Random` model,
used to instantiate the KPI theorems. -/
def rSample : PyRandomModel Nat Nat :=
  { seedInit := fun s => s.length, uniform := fun _ _ s => (s, s + 1),
    randint := fun _ _ s => ((s : Int), s + 1), round2 := fun v => v,
    mulToInt := fun g _ => g }

/-- A concrete rendering function standing in for `datetime.isoformat`. -/
def isoSample : PyDatetime → String := fun d => toString d.instant

/-- A concrete non-draft submission used to instantiate the uniqueness
theorems: same owner, name and schedule as `dupRow`. -/
def dupPayload : CampaignCreateRequest :=
  { pastDraftPayload with
    billboard_ids := [42]
    save_as_draft := false
    start_date := ⟨150, some 480⟩
    end_date := ⟨200, some 480⟩
    name := "dup" }

/-- A concrete stored non-draft campaign clashing with `dupPayload`. -/
def dupRow : CampaignRec :=
  { draftSample with
    id := 7
    name := "dup"
    status := "upcoming"
    start_date := ⟨150, some 480⟩
    end_date := ⟨200, some 480⟩ }

/-- Claim C1: for timezone-aware `start <= end` and any reference instant
`now`, the status function returns exactly `"upcoming"` when `now < start`,
exactly `"active"` when `start <= now <= end`, and exactly `"completed"` when
`now > end`; being a pure function, two calls on the same inputs agree. -/
theorem compute_status_correct
    (start_date end_date now_beijing : PyDatetime)
    (hstart : isAware start_date) (hend : isAware end_date)
    (hnow : isAware now_beijing)
    (hle : pyLe start_date end_date) :
    (compute_status_from_datetimes start_date end_date now_beijing = "upcoming"
        ↔ pyLt now_beijing start_date)
    ∧ (compute_status_from_datetimes start_date end_date now_beijing = "active"
        ↔ (pyLe start_date now_beijing ∧ pyLe now_beijing end_date))
    ∧ (compute_status_from_datetimes start_date end_date now_beijing = "completed"
        ↔ pyLt end_date now_beijing)
    ∧ compute_status_from_datetimes start_date end_date now_beijing
        = compute_status_from_datetimes start_date end_date now_beijing := by
  unfold compute_status_from_datetimes astimezoneSH
  simp only [pyLt, pyLe, pyEq] at *
  refine ⟨?_, ?_, ?_, by trivial⟩ <;> split <;> (try split) <;> simp_all <;> omega

/-- Witness for `compute_status_correct` at concrete aware datetimes. -/
theorem compute_status_correct_witness :
    (compute_status_from_datetimes ⟨10, some 480⟩ ⟨20, some 480⟩ ⟨15, some 0⟩ = "active"
        ↔ (pyLe ⟨10, some 480⟩ ⟨15, some 0⟩ ∧ pyLe ⟨15, some 0⟩ ⟨20, some 480⟩)) :=
  (compute_status_correct ⟨10, some 480⟩ ⟨20, some 480⟩ ⟨15, some 0⟩
    (by decide) (by decide) (by decide) (by decide)).2.1

theorem compute_status_ne_draft (s e n : PyDatetime) :
    compute_status_from_datetimes s e n ≠ "draft" := by
  unfold compute_status_from_datetimes
  dsimp only
  split
  · decide
  split
  · decide
  · decide

theorem refreshStep_draft (now : PyDatetime) (org : Int) (c : CampaignRec)
    (h : c.status = "draft") : refreshStep now org c = c := by
  simp [refreshStep, h]

theorem refreshOrg_preserves_draft (now : PyDatetime) (org : Int)
    (db : List CampaignRec) (i : Nat) (c : CampaignRec)
    (hc : db[i]? = some c) (hd : c.status = "draft") :
    (refresh_campaign_statuses_for_org now org db).1[i]? = some c := by
  unfold refresh_campaign_statuses_for_org
  simp only [List.getElem?_map, hc, Option.map_some']
  rw [refreshStep_draft now org c hd]

theorem refreshOrgsGo_preserves_draft (nows : Nat → PyDatetime) (orgs : List Int) :
    ∀ (k : Nat) (db : List CampaignRec) (i : Nat) (c : CampaignRec),
      db[i]? = some c → c.status = "draft" →
      (refreshOrgsGo nows k orgs db).1[i]? = some c := by
  induction orgs with
  | nil =>
    intro k db i c hc _
    simpa [refreshOrgsGo] using hc
  | cons o os ih =>
    intro k db i c hc hd
    simp only [refreshOrgsGo]
    exact ih (k + 1) _ i c (refreshOrg_preserves_draft (nows k) o db i c hc hd) hd

/-- Claim C2: a campaign whose stored status is `"draft"` is never selected
nor updated by the organization-wide refresh or the all-organizations
refresh: its row (position `i` of the table) is returned unchanged by both,
for every schedule and every current time. -/
theorem refresh_never_touches_draft
    (now : PyDatetime) (org : Int) (nows : Nat → PyDatetime)
    (db : List CampaignRec) (i : Nat) (c : CampaignRec)
    (hc : db[i]? = some c) (hd : c.status = "draft") :
    (refresh_campaign_statuses_for_org now org db).1[i]? = some c
    ∧ (refresh_all_campaign_statuses nows db).1[i]? = some c := by
  refine ⟨refreshOrg_preserves_draft now org db i c hc hd, ?_⟩
  unfold refresh_all_campaign_statuses
  exact refreshOrgsGo_preserves_draft nows _ 0 db i c hc hd

/-- Witness for `refresh_never_touches_draft` on a one-row table. -/
theorem refresh_never_touches_draft_witness :
    (refresh_campaign_statuses_for_org ⟨100, some 480⟩ 5 [draftSample]).1[0]? = some draftSample
    ∧ (refresh_all_campaign_statuses (fun _ => ⟨100, some 480⟩) [draftSample]).1[0]? = some draftSample :=
  refresh_never_touches_draft ⟨100, some 480⟩ 5 (fun _ => ⟨100, some 480⟩)
    [draftSample] 0 draftSample rfl rfl

theorem refreshStep_refreshStep (now : PyDatetime) (org : Int) (c : CampaignRec) :
    refreshStep now org (refreshStep now org c) = refreshStep now org c := by
  unfold refreshStep
  by_cases h : c.organization_id = org ∧ c.status ≠ "draft"
  · rw [if_pos h, if_pos ⟨h.1, compute_status_ne_draft _ _ _⟩]
  · rw [if_neg h, if_neg h]

theorem refreshChanged_refreshStep (now : PyDatetime) (org : Int) (c : CampaignRec) :
    refreshChanged now org (refreshStep now org c) = false := by
  unfold refreshChanged refreshStep
  by_cases h : c.organization_id = org ∧ c.status ≠ "draft"
  · rw [if_pos h]
    simp
  · rw [if_neg h]
    simp only [Bool.and_eq_false_iff, decide_eq_false_iff_not]
    exact Or.inl h

/-- Claim C3: the organization refresh is idempotent: with the same `now`
for both passes, running it a second time immediately after the first leaves
every campaign row as the first pass left it and reports 0 updated. -/
theorem refresh_org_idempotent (now : PyDatetime) (org : Int) (db : List CampaignRec) :
    refresh_campaign_statuses_for_org now org
        (refresh_campaign_statuses_for_org now org db).1
      = ((refresh_campaign_statuses_for_org now org db).1, 0) := by
  unfold refresh_campaign_statuses_for_org
  simp only [Prod.mk.injEq]
  constructor
  · rw [List.map_map]
    exact List.map_congr_left fun c _ => refreshStep_refreshStep now org c
  · rw [List.countP_map]
    exact List.countP_eq_zero.mpr fun c _ => by
      simp [Function.comp, refreshChanged_refreshStep now org c]

/-- Claim C9: the KPI summary attached to every campaign read response is a
deterministic function of `(id, start_date, end_date)`: for any deterministic
generator model and any rendering of datetimes, two campaigns agreeing on
those three fields get identical summaries — both from `_generate_kpi_summary`
directly and through the `_build_response` projection — regardless of every
other campaign field. -/
theorem kpi_summary_deterministic {σ V : Type} (iso : PyDatetime → String)
    (R : PyRandomModel σ V) (c1 c2 : CampaignRec)
    (hid : c1.id = c2.id) (hs : c1.start_date = c2.start_date)
    (he : c1.end_date = c2.end_date) :
    generate_kpi_summary iso R c1 = generate_kpi_summary iso R c2
    ∧ (build_response iso R c1).kpi = (build_response iso R c2).kpi := by
  have h : kpiSeed iso c1 = kpiSeed iso c2 := by
    unfold kpiSeed
    rw [hid, hs, he]
  constructor
  · unfold generate_kpi_summary
    rw [h]
  · show generate_kpi_summary iso R c1 = generate_kpi_summary iso R c2
    unfold generate_kpi_summary
    rw [h]

/-- Witness for `kpi_summary_deterministic`: two campaigns differing in name
and status but agreeing on `(id, start_date, end_date)`. -/
theorem kpi_summary_deterministic_witness :
    generate_kpi_summary isoSample rSample draftSample
      = generate_kpi_summary isoSample rSample
          { draftSample with name := "m", status := "active" }
    ∧ (build_response isoSample rSample draftSample).kpi
      = (build_response isoSample rSample
          { draftSample with name := "m", status := "active" }).kpi :=
  kpi_summary_deterministic isoSample rSample draftSample
    { draftSample with name := "m", status := "active" } rfl rfl rfl

/-- Claim C4: for a campaign whose stored status is any non-draft value,
and any actor of the campaign's organization (the scoped load finding exactly
that row), `delete_campaign` and `edit_campaign` fail with the 400
state-violation errors, and the table is left unchanged by the failed call
(an `Except.error` result carries no updated table). -/
theorem nondraft_edit_delete_rejected
    (inventory : List BillboardRec) (geo : List GeoRec) (now_beijing : PyDatetime)
    (db : List CampaignRec) (campaign_id : Int) (payload : CampaignCreateRequest)
    (current_user : UserRec) (c : CampaignRec)
    (hm : scopedMatches db campaign_id current_user = [c])
    (hs : c.status ≠ "draft") :
    delete_campaign db campaign_id current_user
      = .error (.api 400 .onlyDraftDeleted)
    ∧ edit_campaign inventory geo now_beijing db campaign_id payload current_user
      = .error (.api 400 .onlyDraftEdited) := by
  constructor
  · unfold delete_campaign
    rw [hm]
    simp [hs]
  · unfold edit_campaign
    rw [hm]
    simp only [pure_bind]
    rw [if_pos hs]
    rfl

/-- Witness for `nondraft_edit_delete_rejected` on a one-row table holding an
active campaign. -/
theorem nondraft_edit_delete_rejected_witness :
    delete_campaign [{ draftSample with status := "active" }] 1 ownerSample
      = .error (.api 400 .onlyDraftDeleted)
    ∧ edit_campaign [] [] ⟨100, some 480⟩ [{ draftSample with status := "active" }]
        1 pastDraftPayload ownerSample
      = .error (.api 400 .onlyDraftEdited) :=
  nondraft_edit_delete_rejected [] [] ⟨100, some 480⟩
    [{ draftSample with status := "active" }] 1 pastDraftPayload ownerSample
    { draftSample with status := "active" } rfl (by decide)

/-- Counterexample to claim C5 as stated: a create submission with
`save_as_draft = true` whose `start_date` lies in the past (instant 0,
reference instant 100) is rejected by `create_campaign` with the
future-or-today error on `start_date` — the check is applied to drafts on
the create path, so a past-dated draft is not accepted. -/
theorem create_draft_past_date_rejected :
    create_campaign [] [] ⟨100, some 480⟩ 1 0 [] pastDraftPayload ownerSample
      = .error (.api 400 (.mustBeFutureBeijing "start_date")) := by
  rfl

theorem isEmpty_false_of_ne_nil {α : Type} {l : List α} (h : l ≠ []) :
    l.isEmpty = false := by
  cases l with
  | nil => exact absurd rfl h
  | cons a t => rfl

theorem create_draft_ok (inventory : List BillboardRec) (geo : List GeoRec)
    (now_beijing : PyDatetime) (new_id created_at : Int) (db : List CampaignRec)
    (payload : CampaignCreateRequest) (current_user : UserRec)
    (hrole : current_user.role ≠ "operator")
    (hdraft : payload.save_as_draft = true)
    (hinv : payload.inventory_ids ≠ [])
    (hbb : payload.billboard_ids = [])
    (hcities : payload.cities = [])
    (hstart : ¬ pyLt (astimezoneSH payload.start_date) now_beijing)
    (hend : ¬ pyLt (astimezoneSH payload.end_date) now_beijing)
    (hord : ¬ pyLt payload.end_date payload.start_date) :
    create_campaign inventory geo now_beijing new_id created_at db payload current_user
      = .ok (db ++ [campaignFromPayload payload current_user [] "draft" new_id created_at],
             campaignFromPayload payload current_user [] "draft" new_id created_at) := by
  unfold create_campaign
  rw [if_neg hrole]
  rw [isEmpty_false_of_ne_nil hinv]
  simp only [hdraft, hbb, hcities, normalize_cities, ensure_future_datetime,
    ensure_billboards_belong_to_org, List.isEmpty_nil, ite_true, ite_false,
    not_true, false_and, and_false, if_neg hstart, if_neg hend, if_neg hord,
    Bool.false_eq_true, if_false, pure_bind, not_false_eq_true]
  rfl

theorem edit_draft_ok (inventory : List BillboardRec) (geo : List GeoRec)
    (now_beijing : PyDatetime) (db : List CampaignRec) (campaign_id : Int)
    (payload : CampaignCreateRequest) (current_user : UserRec) (c0 : CampaignRec)
    (hm : scopedMatches db campaign_id current_user = [c0])
    (hst : c0.status = "draft")
    (hdraft : payload.save_as_draft = true)
    (hinv : payload.inventory_ids ≠ [])
    (hbb : payload.billboard_ids = [])
    (hcities : payload.cities = []) :
    ∃ r, edit_campaign inventory geo now_beijing db campaign_id payload current_user
      = Except.ok r := by
  unfold edit_campaign
  rw [hm]
  simp only [pure_bind]
  rw [if_neg (show ¬ ¬ c0.status = "draft" by simp [hst])]
  rw [isEmpty_false_of_ne_nil hinv]
  simp only [hdraft, hbb, hcities, normalize_cities, ensure_billboards_belong_to_org,
    List.isEmpty_nil, ite_true, ite_false, not_true, false_and, and_false,
    Bool.false_eq_true, if_false, pure_bind, not_false_eq_true]
  exact ⟨_, rfl⟩

/-- Claim C5 (amended): drafts are exempt from the per-owner uniqueness
check on both create and edit (the table may contain an exact duplicate and
the draft is still accepted), and exempt from the future-or-today and
schedule-order checks on edit; but on create the future-or-today check is
applied to drafts as well, so a draft whose `start_date` is in the past is
rejected with the 400 future-or-today error rather than accepted. -/
theorem draft_validation_exemptions :
    (∀ (inventory : List BillboardRec) (geo : List GeoRec) (now_beijing : PyDatetime)
       (new_id created_at : Int) (db : List CampaignRec)
       (payload : CampaignCreateRequest) (current_user : UserRec),
       current_user.role ≠ "operator" → payload.save_as_draft = true →
       payload.inventory_ids ≠ [] → payload.billboard_ids = [] →
       payload.cities = [] →
       ¬ pyLt (astimezoneSH payload.start_date) now_beijing →
       ¬ pyLt (astimezoneSH payload.end_date) now_beijing →
       ¬ pyLt payload.end_date payload.start_date →
       create_campaign inventory geo now_beijing new_id created_at db payload
           current_user
         = .ok (db ++ [campaignFromPayload payload current_user [] "draft" new_id created_at],
                campaignFromPayload payload current_user [] "draft" new_id created_at))
    ∧ (∀ (inventory : List BillboardRec) (geo : List GeoRec)
       (now_beijing : PyDatetime) (db : List CampaignRec) (campaign_id : Int)
       (payload : CampaignCreateRequest) (current_user : UserRec) (c0 : CampaignRec),
       scopedMatches db campaign_id current_user = [c0] → c0.status = "draft" →
       payload.save_as_draft = true → payload.inventory_ids ≠ [] →
       payload.billboard_ids = [] → payload.cities = [] →
       ∃ r, edit_campaign inventory geo now_beijing db campaign_id payload current_user
         = Except.ok r)
    ∧ (∀ (inventory : List BillboardRec) (geo : List GeoRec)
       (now_beijing : PyDatetime) (new_id created_at : Int) (db : List CampaignRec)
       (payload : CampaignCreateRequest) (current_user : UserRec),
       current_user.role ≠ "operator" → payload.save_as_draft = true →
       payload.inventory_ids ≠ [] → payload.billboard_ids = [] →
       payload.cities = [] →
       pyLt (astimezoneSH payload.start_date) now_beijing →
       create_campaign inventory geo now_beijing new_id created_at db payload
           current_user
         = .error (.api 400 (.mustBeFutureBeijing "start_date"))) := by
  refine ⟨?_, ?_, ?_⟩
  · intro inventory geo now_beijing new_id created_at db payload current_user
      hrole hdraft hinv hbb hcities hstart hend hord
    exact create_draft_ok inventory geo now_beijing new_id created_at db payload
      current_user hrole hdraft hinv hbb hcities hstart hend hord
  · intro inventory geo now_beijing db campaign_id payload current_user c0
      hm hst hdraft hinv hbb hcities
    exact edit_draft_ok inventory geo now_beijing db campaign_id payload
      current_user c0 hm hst hdraft hinv hbb hcities
  · intro inventory geo now_beijing new_id created_at db payload current_user
      hrole hdraft hinv hbb hcities hpast
    unfold create_campaign
    rw [if_neg hrole]
    rw [isEmpty_false_of_ne_nil hinv]
    simp only [hdraft, hbb, hcities, normalize_cities, ensure_future_datetime,
      ensure_billboards_belong_to_org, List.isEmpty_nil, ite_true, ite_false,
      not_true, false_and, and_false, Bool.false_eq_true, if_false, pure_bind,
      not_false_eq_true, if_pos hpast]
    rfl

/-- Witness for `draft_validation_exemptions`: a concrete future-dated draft
create on an empty table succeeds with the expected inserted row. -/
theorem draft_validation_exemptions_witness :
    create_campaign [] [] ⟨100, some 480⟩ 1 0 [] futureDraftPayload ownerSample
      = .ok ([campaignFromPayload futureDraftPayload ownerSample [] "draft" 1 0],
             campaignFromPayload futureDraftPayload ownerSample [] "draft" 1 0) := by
  have h := draft_validation_exemptions.1 [] [] ⟨100, some 480⟩ 1 0 []
    futureDraftPayload ownerSample (by decide) rfl (by decide) rfl rfl
    (by decide) (by decide) (by decide)
  simpa using h

theorem exceptOkBind {α β : Type} (a : α) (f : α → Except Error β) :
    (Except.ok a >>= f : Except Error β) = f a := rfl

/-- Claim C6: a non-draft create whose `(name, start_date, end_date)` clashes
with an existing non-draft campaign of the same owner (with a real, nonzero
primary key) fails with the 400 duplicate error; the duplicate query matches
only non-draft rows of the same owner with the same name and schedule; on
edit the campaign's own id is excluded from the comparison; and a table
containing only drafts never triggers the check. -/
theorem duplicate_campaign_rejected :
    (∀ (inventory : List BillboardRec) (geo : List GeoRec) (now_beijing : PyDatetime)
       (new_id created_at : Int) (db : List CampaignRec)
       (payload : CampaignCreateRequest) (current_user : UserRec) (c : CampaignRec),
       current_user.role ≠ "operator" → payload.save_as_draft = false →
       payload.inventory_ids ≠ [] → payload.billboard_ids ≠ [] →
       ensure_billboards_belong_to_org inventory payload.billboard_ids
         current_user.organization_id = .ok () →
       dupMatches db payload current_user none = [c] → c.id ≠ 0 →
       create_campaign inventory geo now_beijing new_id created_at db payload
           current_user
         = .error (.api 400 .duplicateCampaign))
    ∧ (∀ (db : List CampaignRec) (payload : CampaignCreateRequest)
       (current_user : UserRec) (ex : Option Int) (c : CampaignRec),
       c ∈ dupMatches db payload current_user ex →
       c.status ≠ "draft" ∧ c.user_id = current_user.id ∧ c.name = payload.name
         ∧ pyEq c.start_date payload.start_date ∧ pyEq c.end_date payload.end_date)
    ∧ (∀ (db : List CampaignRec) (payload : CampaignCreateRequest)
       (current_user : UserRec) (cid : Int) (c : CampaignRec),
       c ∈ dupMatches db payload current_user (some cid) → c.id ≠ cid)
    ∧ (∀ (db : List CampaignRec) (payload : CampaignCreateRequest)
       (current_user : UserRec) (ex : Option Int),
       (∀ c ∈ db, c.status = "draft") →
       ensure_unique_campaign db payload current_user ex = .ok ()) := by
  refine ⟨?_, ?_, ?_, ?_⟩
  · intro inventory geo now_beijing new_id created_at db payload current_user c
      hrole hdraft hinv hbb hbbok hdup hc0
    unfold create_campaign
    rw [if_neg hrole]
    rw [isEmpty_false_of_ne_nil hinv]
    simp only [hdraft, isEmpty_false_of_ne_nil hbb, Bool.false_eq_true,
      not_false_eq_true, true_and, and_true, ite_true, ite_false, if_false,
      Bool.not_eq_true, and_false, false_and]
    rw [hbbok]
    rw [exceptOkBind]
    simp only [ensure_unique_campaign, hdup]
    rw [if_pos hc0]
    rfl
  · intro db payload current_user ex c hc
    have h := (List.mem_filter.mp hc).2
    simp only [Bool.and_eq_true, beq_iff_eq, bne_iff_ne, decide_eq_true_eq] at h
    exact ⟨h.1.2, h.1.1.1.1.1, h.1.1.1.1.2, h.1.1.1.2, h.1.1.2⟩
  · intro db payload current_user cid c hc
    have h := (List.mem_filter.mp hc).2
    simp only [Bool.and_eq_true, beq_iff_eq, bne_iff_ne, decide_eq_true_eq] at h
    exact h.2
  · intro db payload current_user ex hall
    have h : dupMatches db payload current_user ex = [] := by
      refine List.filter_eq_nil.mpr fun c hc => ?_
      simp only [Bool.and_eq_true, beq_iff_eq, bne_iff_ne, decide_eq_true_eq,
        not_and]
      intro h1 h2
      exact h1.2 (hall c hc)
    unfold ensure_unique_campaign
    rw [h]

/-- Witness for `duplicate_campaign_rejected`: a concrete non-draft create
clashing with the stored row `dupRow` fails with the duplicate error. -/
theorem duplicate_campaign_rejected_witness :
    create_campaign [⟨42, 5⟩] [] ⟨100, some 480⟩ 9 0 [dupRow] dupPayload ownerSample
      = .error (.api 400 .duplicateCampaign) :=
  duplicate_campaign_rejected.1 [⟨42, 5⟩] [] ⟨100, some 480⟩ 9 0 [dupRow]
    dupPayload ownerSample dupRow (by decide) rfl (by decide) (by decide)
    rfl (by decide) (by decide)

theorem mem_insertSorted (a x : Int) (l : List Int) :
    a ∈ insertSorted x l ↔ a = x ∨ a ∈ l := by
  induction l with
  | nil => simp [insertSorted]
  | cons y ys ih =>
    simp only [insertSorted]
    split
    · simp
    · simp only [List.mem_cons, ih]
      tauto

theorem mem_sortInts (a : Int) (l : List Int) : a ∈ sortInts l ↔ a ∈ l := by
  induction l with
  | nil => simp [sortInts]
  | cons x xs ih =>
    simp only [sortInts, List.foldr] at *
    rw [mem_insertSorted]
    simp [ih]

theorem mem_pySortedSet (a : Int) (l : List Int) :
    a ∈ pySortedSet l ↔ a ∈ l := by
  unfold pySortedSet
  rw [mem_sortInts, List.mem_dedup]

theorem mem_missingIds (inventory : List BillboardRec) (ids : List Int) (j : Int) :
    (j ∈ ids.filter (fun i =>
        ! ((inventory.filter (fun b => ids.contains b.id)).map (·.id)).contains i))
      ↔ (j ∈ ids ∧ ∀ b ∈ inventory, b.id ≠ j) := by
  simp only [List.mem_filter, Bool.not_eq_true', List.contains, List.elem_eq_mem,
    decide_eq_false_iff_not, List.mem_map, List.mem_filter, not_exists, not_and]
  constructor
  · rintro ⟨hj, hno⟩
    refine ⟨hj, fun b hb hbj => ?_⟩
    exact hno b ⟨hb, by simp [List.contains, List.elem_eq_mem, hbj, hj]⟩ hbj
  · rintro ⟨hj, hno⟩
    exact ⟨hj, fun b hb => hno b hb.1⟩

theorem mem_unauthorizedIds (inventory : List BillboardRec) (ids : List Int)
    (org : Int) (j : Int) :
    (j ∈ sortInts (((inventory.filter (fun b => ids.contains b.id)).filter
        (fun b => b.organization_id != org)).map (·.id)))
      ↔ (j ∈ ids ∧ ∃ b ∈ inventory, b.id = j ∧ b.organization_id ≠ org) := by
  rw [mem_sortInts]
  simp only [List.mem_map, List.mem_filter, bne_iff_ne, List.contains,
    List.elem_eq_mem, decide_eq_true_eq]
  constructor
  · rintro ⟨b, ⟨⟨hb, hbid⟩, hborg⟩, hbj⟩
    exact ⟨hbj ▸ hbid, b, hb, hbj, hborg⟩
  · rintro ⟨hj, b, hb, hbj, hborg⟩
    exact ⟨b, ⟨⟨hb, hbj ▸ hj⟩, hborg⟩, hbj⟩

theorem ensure_billboards_missing_spec (inventory : List BillboardRec)
    (ids : List Int) (org : Int) (hne : ids ≠ [])
    (hmiss : ∃ i ∈ ids, ∀ b ∈ inventory, b.id ≠ i) :
    ∃ ms, ensure_billboards_belong_to_org inventory ids org
        = .error (.api 400 (.billboardsNotFound ms))
      ∧ ∀ j, j ∈ ms ↔ (j ∈ ids ∧ ∀ b ∈ inventory, b.id ≠ j) := by
  unfold ensure_billboards_belong_to_org
  rw [isEmpty_false_of_ne_nil hne]
  simp only [Bool.false_eq_true, if_false]
  obtain ⟨i, hi, hino⟩ := hmiss
  have hmem : i ∈ ids.filter (fun i =>
      ! ((inventory.filter (fun b => ids.contains b.id)).map (·.id)).contains i) :=
    (mem_missingIds inventory ids i).mpr ⟨hi, hino⟩
  have hfalse := isEmpty_false_of_ne_nil (List.ne_nil_of_mem hmem)
  have hcond : ¬ ((ids.filter (fun i =>
      ! ((inventory.filter (fun b => ids.contains b.id)).map (·.id)).contains i)).isEmpty
        = true) := by
    rw [hfalse]
    simp
  rw [if_pos hcond]
  refine ⟨_, rfl, fun j => ?_⟩
  rw [mem_pySortedSet, mem_missingIds]

/-- Claim C7: for a non-empty submitted billboard id list, the ownership
check (i) fails with the 400 error listing exactly the submitted ids that
exist on no inventory row whenever some id is unknown, (ii) fails with the
403 error listing exactly the submitted ids owned by another organization
when every id exists but some row belongs elsewhere, and (iii) passes when
every id exists and every matching row belongs to the organization. -/
theorem billboard_org_check (inventory : List BillboardRec) (ids : List Int)
    (org : Int) (hne : ids ≠ []) :
    ((∃ i ∈ ids, ∀ b ∈ inventory, b.id ≠ i) →
      ∃ ms, ensure_billboards_belong_to_org inventory ids org
          = .error (.api 400 (.billboardsNotFound ms))
        ∧ ∀ j, j ∈ ms ↔ (j ∈ ids ∧ ∀ b ∈ inventory, b.id ≠ j))
    ∧ ((∀ i ∈ ids, ∃ b ∈ inventory, b.id = i) →
       (∃ i ∈ ids, ∃ b ∈ inventory, b.id = i ∧ b.organization_id ≠ org) →
      ∃ us, ensure_billboards_belong_to_org inventory ids org
          = .error (.api 403 (.billboardsWrongOrg us))
        ∧ ∀ j, j ∈ us ↔ (j ∈ ids ∧ ∃ b ∈ inventory, b.id = j ∧ b.organization_id ≠ org))
    ∧ ((∀ i ∈ ids, ∃ b ∈ inventory, b.id = i) →
       (∀ b ∈ inventory, b.id ∈ ids → b.organization_id = org) →
      ensure_billboards_belong_to_org inventory ids org = .ok ()) := by
  refine ⟨ensure_billboards_missing_spec inventory ids org hne, ?_, ?_⟩
  · intro hall hwrong
    have hmissnil : (ids.filter (fun i =>
        ! ((inventory.filter (fun b => ids.contains b.id)).map (·.id)).contains i)) = [] := by
      rw [List.eq_nil_iff_forall_not_mem]
      intro j hjmem
      obtain ⟨hj, hno⟩ := (mem_missingIds inventory ids j).mp hjmem
      obtain ⟨b, hb, hbj⟩ := hall j hj
      exact hno b hb hbj
    unfold ensure_billboards_belong_to_org
    rw [isEmpty_false_of_ne_nil hne]
    simp only [Bool.false_eq_true, if_false]
    rw [hmissnil]
    rw [if_neg (by simp)]
    obtain ⟨i, hi, b, hb, hbi, hborg⟩ := hwrong
    have hmemU : b.id ∈ sortInts (((inventory.filter (fun b => ids.contains b.id)).filter
        (fun b => b.organization_id != org)).map (·.id)) :=
      (mem_unauthorizedIds inventory ids org b.id).mpr ⟨hbi ▸ hi, b, hb, rfl, hborg⟩
    have hfalse2 := isEmpty_false_of_ne_nil (List.ne_nil_of_mem hmemU)
    have hcond2 : ¬ ((sortInts (((inventory.filter (fun b => ids.contains b.id)).filter
        (fun b => b.organization_id != org)).map (·.id))).isEmpty = true) := by
      rw [hfalse2]
      simp
    rw [if_pos hcond2]
    exact ⟨_, rfl, fun j => mem_unauthorizedIds inventory ids org j⟩
  · intro hall hown
    have hmissnil : (ids.filter (fun i =>
        ! ((inventory.filter (fun b => ids.contains b.id)).map (·.id)).contains i)) = [] := by
      rw [List.eq_nil_iff_forall_not_mem]
      intro j hjmem
      obtain ⟨hj, hno⟩ := (mem_missingIds inventory ids j).mp hjmem
      obtain ⟨b, hb, hbj⟩ := hall j hj
      exact hno b hb hbj
    have hunil : (((inventory.filter (fun b => ids.contains b.id)).filter
        (fun b => b.organization_id != org)).map (·.id)) = [] := by
      rw [List.map_eq_nil_iff, List.eq_nil_iff_forall_not_mem]
      intro b hbmem
      rw [List.mem_filter, List.mem_filter] at hbmem
      obtain ⟨⟨hb, hbin⟩, hbneq⟩ := hbmem
      have hbids : b.id ∈ ids := by
        have := hbin
        simpa [List.contains, List.elem_eq_mem] using this
      exact (bne_iff_ne.mp hbneq) (hown b hb hbids)
    unfold ensure_billboards_belong_to_org
    rw [isEmpty_false_of_ne_nil hne]
    simp only [Bool.false_eq_true, if_false]
    rw [hmissnil]
    rw [if_neg (by simp)]
    rw [hunil]
    rw [if_neg (by simp [sortInts])]

/-- Witness for `billboard_org_check`: one owned billboard passes. -/
theorem billboard_org_check_witness :
    ensure_billboards_belong_to_org [⟨42, 5⟩] [42] 5 = .ok () :=
  (billboard_org_check [⟨42, 5⟩] [42] 5 (by decide)).2.2 (by decide) (by decide)

/-- Claim C10: when the submitted list contains both unknown ids and ids
owned by another organization, the check fails with the 400 not-found error
whose list contains exactly the unknown ids — in particular no id that
exists in inventory (such as the wrong-organization ones) appears in it, and
no 403 is reported. -/
theorem mixed_invalid_billboards_report_missing (inventory : List BillboardRec)
    (ids : List Int) (org : Int) (hne : ids ≠ [])
    (hmiss : ∃ i ∈ ids, ∀ b ∈ inventory, b.id ≠ i)
    (hwrong : ∃ i ∈ ids, ∃ b ∈ inventory, b.id = i ∧ b.organization_id ≠ org) :
    ∃ ms, ensure_billboards_belong_to_org inventory ids org
        = .error (.api 400 (.billboardsNotFound ms))
      ∧ (∀ j, j ∈ ms ↔ (j ∈ ids ∧ ∀ b ∈ inventory, b.id ≠ j))
      ∧ ∀ j ∈ ms, ¬ ∃ b ∈ inventory, b.id = j := by
  obtain ⟨ms, heq, hiff⟩ := ensure_billboards_missing_spec inventory ids org hne hmiss
  refine ⟨ms, heq, hiff, fun j hj => ?_⟩
  rintro ⟨b, hb, hbj⟩
  exact ((hiff j).mp hj).2 b hb hbj

/-- Witness for `mixed_invalid_billboards_report_missing`: id 1 is unknown,
id 2 exists but belongs to organization 7 while the actor is organization 5;
the check reports 400 with exactly `[1]`. -/
theorem mixed_invalid_billboards_report_missing_witness :
    ∃ ms, ensure_billboards_belong_to_org [⟨2, 7⟩] [1, 2] 5
        = .error (.api 400 (.billboardsNotFound ms))
      ∧ (∀ j, j ∈ ms ↔ (j ∈ ([1, 2] : List Int) ∧ ∀ b ∈ [(⟨2, 7⟩ : BillboardRec)], b.id ≠ j))
      ∧ ∀ j ∈ ms, ¬ ∃ b ∈ [(⟨2, 7⟩ : BillboardRec)], b.id = j :=
  mixed_invalid_billboards_report_missing [⟨2, 7⟩] [1, 2] 5 (by decide)
    (by decide) (by decide)

theorem ceilDivPos {a b : Nat} (ha : 0 < a) (hb : 0 < b) : 0 < ceilDiv a b := by
  unfold ceilDiv
  exact Nat.div_pos (by omega) hb

theorem ceilDivZeroLeft {b : Nat} (hb : 0 < b) : ceilDiv 0 b = 0 := by
  unfold ceilDiv
  exact Nat.div_eq_of_lt (by omega)

theorem ceilDivSelfEq {b : Nat} (hb : 0 < b) : ceilDiv b b = 1 := by
  unfold ceilDiv
  exact Nat.div_eq_of_lt_le (by omega) (by omega)

theorem ceilDivSuccSelfEq {b : Nat} (hb : 0 < b) : ceilDiv (b + 1) b = 2 := by
  unfold ceilDiv
  exact Nat.div_eq_of_lt_le (by omega) (by omega)

theorem list_campaigns_bad_params {ρ : Type} (proj : CampaignRec → ρ)
    (now_beijing : PyDatetime) (db : List CampaignRec) (current_user : UserRec)
    (page per_page : Int) (search status_filter : Option String)
    (start_date end_date : Option PyDatetime)
    (h : page < 1 ∨ per_page < 1) :
    list_campaigns proj now_beijing db current_user page per_page search
      status_filter start_date end_date = .error (.api 400 .invalidPageParams) := by
  unfold list_campaigns
  rw [if_pos h]
  rfl

theorem list_campaigns_404 {ρ : Type} (proj : CampaignRec → ρ)
    (now_beijing : PyDatetime) (db : List CampaignRec) (current_user : UserRec)
    (page per_page : Int) (search status_filter : Option String)
    (start_date end_date : Option PyDatetime) (q : List CampaignRec)
    (hq : campaignQuery now_beijing db current_user search status_filter
      start_date end_date = .ok q)
    (hp : 1 ≤ page) (hpp : 1 ≤ per_page) (hlen : 0 < q.length)
    (hgt : (ceilDiv q.length per_page.toNat : Int) < page) :
    list_campaigns proj now_beijing db current_user page per_page search
      status_filter start_date end_date = .error (.api 404 .pageNotFound) := by
  unfold list_campaigns
  rw [if_neg (by omega)]
  rw [hq, exceptOkBind]
  dsimp only
  have hpos : 0 < ceilDiv q.length per_page.toNat := ceilDivPos hlen (by omega)
  rw [if_pos ⟨by omega, hgt⟩]
  rfl

theorem list_campaigns_ok_shape {ρ : Type} (proj : CampaignRec → ρ)
    (now_beijing : PyDatetime) (db : List CampaignRec) (current_user : UserRec)
    (page per_page : Int) (search status_filter : Option String)
    (start_date end_date : Option PyDatetime) (q : List CampaignRec)
    (hq : campaignQuery now_beijing db current_user search status_filter
      start_date end_date = .ok q)
    (hp : 1 ≤ page) (hpp : 1 ≤ per_page)
    (hok : page ≤ (ceilDiv q.length per_page.toNat : Int) ∨ q.length = 0) :
    list_campaigns proj now_beijing db current_user page per_page search
        status_filter start_date end_date
      = .ok { items := (((sortByCreatedDesc q).drop
                ((page - 1) * per_page).toNat).take per_page.toNat).map proj,
              total := q.length, per_page := per_page, current_page := page,
              last_page := ceilDiv q.length per_page.toNat,
              has_more := decide (page < (ceilDiv q.length per_page.toNat : Int)) } := by
  unfold list_campaigns
  rw [if_neg (by omega)]
  rw [hq, exceptOkBind]
  dsimp only
  have hcond : ¬ (ceilDiv q.length per_page.toNat ≠ 0
      ∧ (ceilDiv q.length per_page.toNat : Int) < page) := by
    rintro ⟨hne0, hlt⟩
    rcases hok with h | h
    · omega
    · exact hne0 (by rw [h]; exact ceilDivZeroLeft (by omega))
  rw [if_neg hcond]
  rfl

/-- Claim C8: `list_campaigns` rejects `page < 1` or `per_page < 1` with a
400; with `last_page = ceil(total / per_page)`, a page beyond `last_page`
when the filtered total is positive fails 404 instead of returning an empty
page; a successful call returns the `{items, total, per_page, current_page,
last_page, has_more}` envelope with `has_more = (page < last_page)`; hence
`has_more` is false for `total = 0` and for `total = per_page` on page 1,
and true for `total = per_page + 1` on page 1. -/
theorem list_campaigns_pagination {ρ : Type} (proj : CampaignRec → ρ)
    (now_beijing : PyDatetime) (db : List CampaignRec) (current_user : UserRec)
    (search status_filter : Option String)
    (start_date end_date : Option PyDatetime) :
    (∀ page per_page : Int, page < 1 ∨ per_page < 1 →
      list_campaigns proj now_beijing db current_user page per_page search
        status_filter start_date end_date = .error (.api 400 .invalidPageParams))
    ∧ (∀ (page per_page : Int) (q : List CampaignRec),
       campaignQuery now_beijing db current_user search status_filter
         start_date end_date = .ok q →
       1 ≤ page → 1 ≤ per_page → 0 < q.length →
       (ceilDiv q.length per_page.toNat : Int) < page →
       list_campaigns proj now_beijing db current_user page per_page search
         status_filter start_date end_date = .error (.api 404 .pageNotFound))
    ∧ (∀ (page per_page : Int) (q : List CampaignRec),
       campaignQuery now_beijing db current_user search status_filter
         start_date end_date = .ok q →
       1 ≤ page → 1 ≤ per_page →
       (page ≤ (ceilDiv q.length per_page.toNat : Int) ∨ q.length = 0) →
       list_campaigns proj now_beijing db current_user page per_page search
           status_filter start_date end_date
         = .ok { items := (((sortByCreatedDesc q).drop
                   ((page - 1) * per_page).toNat).take per_page.toNat).map proj,
                 total := q.length, per_page := per_page, current_page := page,
                 last_page := ceilDiv q.length per_page.toNat,
                 has_more := decide (page < (ceilDiv q.length per_page.toNat : Int)) })
    ∧ (∀ (per_page : Int) (q : List CampaignRec),
       campaignQuery now_beijing db current_user search status_filter
         start_date end_date = .ok q →
       1 ≤ per_page → q.length = 0 →
       ∃ r, list_campaigns proj now_beijing db current_user 1 per_page search
           status_filter start_date end_date = .ok r
         ∧ r.has_more = false ∧ r.last_page = 0)
    ∧ (∀ (per_page : Int) (q : List CampaignRec),
       campaignQuery now_beijing db current_user search status_filter
         start_date end_date = .ok q →
       1 ≤ per_page → (q.length : Int) = per_page →
       ∃ r, list_campaigns proj now_beijing db current_user 1 per_page search
           status_filter start_date end_date = .ok r
         ∧ r.has_more = false ∧ r.last_page = 1)
    ∧ (∀ (per_page : Int) (q : List CampaignRec),
       campaignQuery now_beijing db current_user search status_filter
         start_date end_date = .ok q →
       1 ≤ per_page → (q.length : Int) = per_page + 1 →
       ∃ r, list_campaigns proj now_beijing db current_user 1 per_page search
           status_filter start_date end_date = .ok r
         ∧ r.has_more = true ∧ r.last_page = 2) := by
  refine ⟨?_, ?_, ?_, ?_, ?_, ?_⟩
  · intro page per_page h
    exact list_campaigns_bad_params proj now_beijing db current_user page per_page
      search status_filter start_date end_date h
  · intro page per_page q hq hp hpp hlen hgt
    exact list_campaigns_404 proj now_beijing db current_user page per_page
      search status_filter start_date end_date q hq hp hpp hlen hgt
  · intro page per_page q hq hp hpp hok
    exact list_campaigns_ok_shape proj now_beijing db current_user page per_page
      search status_filter start_date end_date q hq hp hpp hok
  · intro per_page q hq hpp hlen
    refine ⟨_, list_campaigns_ok_shape proj now_beijing db current_user 1 per_page
      search status_filter start_date end_date q hq (by omega) hpp (Or.inr hlen), ?_, ?_⟩
    · simp only [hlen, ceilDivZeroLeft (show 0 < per_page.toNat by omega)]
      decide
    · simp only [hlen, ceilDivZeroLeft (show 0 < per_page.toNat by omega)]
  · intro per_page q hq hpp hlen
    have hlen' : q.length = per_page.toNat := by omega
    have hlast : ceilDiv q.length per_page.toNat = 1 := by
      rw [hlen']
      exact ceilDivSelfEq (by omega)
    refine ⟨_, list_campaigns_ok_shape proj now_beijing db current_user 1 per_page
      search status_filter start_date end_date q hq (by omega) hpp
      (Or.inl (by rw [hlast]; omega)), ?_, ?_⟩
    · simp only [hlast]
      decide
    · simp only [hlast]
  · intro per_page q hq hpp hlen
    have hlen' : q.length = per_page.toNat + 1 := by omega
    have hlast : ceilDiv q.length per_page.toNat = 2 := by
      rw [hlen']
      exact ceilDivSuccSelfEq (by omega)
    refine ⟨_, list_campaigns_ok_shape proj now_beijing db current_user 1 per_page
      search status_filter start_date end_date q hq (by omega) hpp
      (Or.inl (by rw [hlast]; omega)), ?_, ?_⟩
    · simp only [hlast]
      decide
    · simp only [hlast]

/-- Witness for `list_campaigns_pagination`: page 0 is rejected. -/
theorem list_campaigns_pagination_witness :
    list_campaigns (fun c => c) ⟨100, some 480⟩ [] ownerSample 0 10 none none
      none none = .error (.api 400 .invalidPageParams) :=
  (list_campaigns_pagination (fun c => c) ⟨100, some 480⟩ [] ownerSample
    none none none none).1 0 10 (by omega)
